import Mathlib

/-!
# Verification of the `VTextField` core (single-line text-entry widget)

Shallow embedding of the logic in
`src/packages/vuetify/src/components/VTextField/VTextField.tsx`:

* the `isActive` computed (active/decoration state resolver),
* the `counterValue` and `max` computeds (counter value resolver),
* the event handlers `onIntersect`, `onFocus`, `onControlMousedown`,
  `onControlClick`, `onClear`, `onInput`.

JavaScript values that matter to these computations are modelled
explicitly: attribute values that undergo truthiness tests become
`JSVal`; the `counter` prop (`true | number | string`, possibly absent)
becomes `CounterProp`; `null`/`undefined` model values become
`Option String`; DOM elements are identified by natural numbers; a
handler's observable behaviour is a list of effects (`Eff`), split into
a synchronous part and a `nextTick`-deferred part where the source
defers work.  A JavaScript exception (e.g. reading `.target` of
`undefined`) is modelled as `Except.error`.
-/

namespace VTextField

/-- A JavaScript value as it appears in an attribute position
(`attrs.maxlength`): absent (`undefined`), a number, or a string. -/
inductive JSVal where
  | undef : JSVal
  | num : Int → JSVal
  | str : String → JSVal
deriving DecidableEq, Repr

/-- JavaScript truthiness of a `JSVal`: `undefined` is falsy, a number
is truthy iff nonzero, a string is truthy iff nonempty. -/
def JSVal.truthy : JSVal → Bool
  | .undef => false
  | .num n => n != 0
  | .str s => s != ""

/-- The `counter` prop: `PropType<true | number | string>`, or absent. -/
inductive CounterProp where
  | undef : CounterProp
  | bool : Bool → CounterProp
  | num : Int → CounterProp
  | str : String → CounterProp
deriving DecidableEq, Repr

/-- JavaScript truthiness of the `counter` prop (`!props.counter`). -/
def CounterProp.truthy : CounterProp → Bool
  | .undef => false
  | .bool b => b
  | .num n => n != 0
  | .str s => s != ""

/-- `typeof props.counter === 'number'`. -/
def CounterProp.isNum : CounterProp → Bool
  | .num _ => true
  | _ => false

/-- `typeof props.counter === 'string'`. -/
def CounterProp.isStr : CounterProp → Bool
  | .str _ => true
  | _ => false

/-- The `counter` prop viewed as a returned JavaScript value (only the
number/string cases are ever returned by the `max` computed). -/
def CounterProp.toJSVal : CounterProp → JSVal
  | .undef => .undef
  | .bool _ => .undef
  | .num n => .num n
  | .str s => .str s

/-- The `modelModifiers` prop object; the recognized key is `trim`. -/
structure ModelModifiers where
  trim : Bool
deriving DecidableEq, Repr

/-- The props of `VTextField` that the verified logic reads.
`counterValue` is the optional custom counting function
(`(value: any) => number`, modelled on the widget's model values);
`onClickClear` records whether a clear callback is configured. -/
structure Props where
  autofocus : Bool
  counter : CounterProp
  counterValue : Option (Option String → Int)
  persistentPlaceholder : Bool
  active : Bool
  type : String
  modelModifiers : Option ModelModifiers
  onClickClear : Bool

/-- `props.modelModifiers?.trim` (optional chaining: `undefined` when
the object is absent, which is falsy). -/
def Props.trimModifier (p : Props) : Bool :=
  match p.modelModifiers with
  | some m => m.trim
  | none => false

/-- `const activeTypes = ['color', 'file', 'time', 'date',
'datetime-local', 'week', 'month']` (line 26). -/
def activeTypes : List String :=
  ["color", "file", "time", "date", "datetime-local", "week", "month"]

/-- The `isActive` computed (lines 102–107):
`activeTypes.includes(props.type) || props.persistentPlaceholder ||
isFocused.value || props.active`. -/
def isActive (p : Props) (isFocused : Bool) : Bool :=
  activeTypes.contains p.type || p.persistentPlaceholder || isFocused || p.active

/-- The `counterValue` computed (lines 71–75):
`typeof props.counterValue === 'function' ? props.counterValue(model.value)
: (model.value ?? '').toString().length`. -/
def counterValue (p : Props) (model : Option String) : Int :=
  match p.counterValue with
  | some f => f model
  | none => ((model.getD "").length : Int)

/-- The `max` computed (lines 76–86):
`if (attrs.maxlength) return attrs.maxlength` then
`if (!props.counter || (typeof props.counter !== 'number' && typeof
props.counter !== 'string')) return undefined` then
`return props.counter`.  `none` is the `undefined` result. -/
def max (maxlength : JSVal) (counter : CounterProp) : Option JSVal :=
  if maxlength.truthy then some maxlength
  else if !counter.truthy || (!counter.isNum && !counter.isStr) then none
  else some counter.toJSVal

/-- One `IntersectionObserverEntry`: only its `target` matters here.
`target` is optional to honour the source's `?.` guard. -/
structure IntersectEntry where
  target : Option Nat
deriving DecidableEq, Repr

/-- The `onIntersect` handler (lines 90–97).  Returns the element that
received a programmatic `.focus()` call, if any; `Except.error ()` is
the `TypeError` thrown by `entries[0].target` when `entries` is empty
(`entries[0]` is `undefined` and the property access precedes the
optional chaining). -/
def onIntersect (autofocus : Bool) (isIntersecting : Bool)
    (entries : List IntersectEntry) : Except Unit (Option Nat) :=
  if !autofocus || !isIntersecting then .ok none
  else
    match entries with
    | [] => .error ()
    | e :: _ => .ok e.target

/-- The reactive context a handler runs in: the `inputRef` element (if
mounted), `document.activeElement`, the `isFocused` flag of the focus
controller, and the proxied model value (`none` is `null`/cleared). -/
structure Ctx where
  inputEl : Option Nat
  activeElement : Option Nat
  isFocused : Bool
  model : Option String
deriving DecidableEq, Repr

/-- Observable effects of the handlers. -/
inductive Eff where
  | emitMousedownControl : Eff
  | emitClickControl : Eff
  | stopPropagation : Eff
  | preventDefault : Eff
  | focusEl : Nat → Eff
  | focusTransition : Eff
  | setModelNull : Eff
  | callClearCb : Eff
deriving DecidableEq, Repr

/-- JavaScript strict inequality `inputRef.value !== document.activeElement`:
`undefined` (absent ref) is never strictly equal to `null` or to an
element, so the comparison is `false` only when both sides are the same
element. -/
def strictNe (a b : Option Nat) : Bool :=
  match a, b with
  | some x, some y => x != y
  | _, _ => true

/-- The `onFocus` handler (lines 108–114):
`if (inputRef.value !== document.activeElement) inputRef.value?.focus()`
then `if (!isFocused.value) focus()`. -/
def onFocus (c : Ctx) : List Eff :=
  (if strictNe c.inputEl c.activeElement then
    match c.inputEl with
    | some el => [.focusEl el]
    | none => []
  else []) ++
  (if !c.isFocused then [.focusTransition] else [])

/-- The `onControlMousedown` handler (lines 115–122): emit
`mousedown:control`, then `if (e.target === inputRef.value) return`,
else `onFocus(); e.preventDefault()`.  `target` is the mousedown
event's target element; strict equality with an absent ref is false. -/
def onControlMousedown (c : Ctx) (target : Nat) : List Eff :=
  .emitMousedownControl ::
    (if some target == c.inputEl then []
     else onFocus c ++ [.preventDefault])

/-- The `onControlClick` handler (lines 123–127). -/
def onControlClick (c : Ctx) : List Eff :=
  onFocus c ++ [.emitClickControl]

/-- Modelled from the spec: the `callEvent` utility (imported from
`@/util`, not under `src/`) "the clear callback is invoked only if
configured, otherwise skipped". -/
def callEvent (configured : Bool) : List Eff :=
  if configured then [.callClearCb] else []

/-- The `onClear` handler (lines 128–138): synchronously
`e.stopPropagation(); onFocus()`, then in a `nextTick` continuation
`model.value = null; callEvent(props['onClick:clear'], e)`.  The first
component is the synchronous effect trace, the second the deferred
one. -/
def onClear (c : Ctx) (p : Props) : List Eff × List Eff :=
  (.stopPropagation :: onFocus c,
   .setModelNull :: callEvent p.onClickClear)

/-- Interpretation of one effect on the reactive context: a programmatic
element focus makes that element the active element, the focus
controller's `focus()` sets the flag, `model.value = null` clears the
model; emissions and event-object calls do not change the context. -/
def applyEff (c : Ctx) : Eff → Ctx
  | .focusEl el => { c with activeElement := some el }
  | .focusTransition => { c with isFocused := true }
  | .setModelNull => { c with model := none }
  | _ => c

/-- Run a trace of effects over the context. -/
def applyEffs (c : Ctx) (es : List Eff) : Ctx :=
  es.foldl applyEff c

/-- The native input element's state as the `onInput` handler sees it:
`value`, `selectionStart`, `selectionEnd` (the selection indices are
`null` for some entry types, hence `Option`). -/
structure El where
  value : String
  selectionStart : Option Nat
  selectionEnd : Option Nat
deriving DecidableEq, Repr

/-- Result of `onInput`: the value written to the model, and the caret
capture scheduled for restoration on `nextTick` (if any). -/
structure OnInputResult where
  modelWrite : String
  caretRestore : Option (Option Nat × Option Nat)
deriving DecidableEq, Repr

/-- `['text', 'search', 'password', 'tel', 'url']` (line 144). -/
def trimTypes : List String :=
  ["text", "search", "password", "tel", "url"]

/-- The `onInput` handler (lines 139–152): `model.value = el.value`
unconditionally; if `props.modelModifiers?.trim` and the type is in
`trimTypes`, capture `[el.selectionStart, el.selectionEnd]` and schedule
their restoration on `nextTick`. -/
def onInput (p : Props) (el : El) : OnInputResult :=
  { modelWrite := el.value
    caretRestore :=
      if p.trimModifier && trimTypes.contains p.type then
        some (el.selectionStart, el.selectionEnd)
      else none }

/-- The deferred continuation of `onInput` run against the element state
`el'` found after the update flushes: `el.selectionStart = cap.1;
el.selectionEnd = cap.2`. -/
def applyCaretRestore (cap : Option Nat × Option Nat) (el' : El) : El :=
  { el' with selectionStart := cap.1, selectionEnd := cap.2 }

/-- Modelled from the spec: the visibility-detection directive (imported
from `@/directives/intersect`, not under `src/`) in its "fire once" mode,
as bound at lines 215–217 (`v-intersect={[\x7b handler: onIntersect \x7d,
null, ['once']]}`).  While subscribed, each visibility report invokes the
bound `onIntersect` handler on the observed element; the subscription is
torn down after the first intersecting report (the ARMED→FIRED
transition), and a non-intersecting report changes nothing.  Initially
the trigger is armed only when `autofocus` is true (with `autofocus`
false the handler is inert).  The result is the new subscription state
and the element focused by the handler, if any. -/
def intersectOnceStep (autofocus : Bool) (target : Nat) (subscribed : Bool)
    (isIntersecting : Bool) : Bool × Option Nat :=
  if !subscribed then (false, none)
  else
    let fired :=
      match onIntersect autofocus isIntersecting [⟨some target⟩] with
      | .ok r => r
      | .error _ => none
    if isIntersecting then (false, fired) else (true, fired)

/-- Run the once-mode trigger over a sequence of visibility reports
(`true` = intersecting), starting from subscription state `sub`;
collects, per report, the element focused at that report (if any). -/
def runIntersect (autofocus : Bool) (target : Nat) :
    Bool → List Bool → List (Option Nat)
  | _, [] => []
  | sub, r :: rs =>
    let step := intersectOnceStep autofocus target sub r
    step.2 :: runIntersect autofocus target step.1 rs

/-- The whole autofocus-on-visible trigger: armed initially iff
`autofocus` is true. -/
def autofocusFires (autofocus : Bool) (target : Nat)
    (reports : List Bool) : List (Option Nat) :=
  runIntersect autofocus target autofocus reports

/-- The firing pattern the claim describes: with `autofocus`, focus
fires exactly at the first intersecting report and never again;
otherwise never. -/
def expectedFires (autofocus : Bool) (target : Nat) :
    List Bool → List (Option Nat)
  | [] => []
  | r :: rs =>
    if autofocus && r then some target :: rs.map (fun _ => none)
    else none :: expectedFires autofocus target rs

/-- A concrete props record used to instantiate universally quantified
theorems; fields match the source's defaults where it has them
(`type: \x7b type: String, default: 'text' \x7d`). -/
def someProps : Props :=
  { autofocus := false
    counter := .undef
    counterValue := none
    persistentPlaceholder := false
    active := false
    type := "text"
    modelModifiers := none
    onClickClear := false }

/-- A concrete reactive context used to instantiate theorems. -/
def someCtx : Ctx :=
  { inputEl := some 7
    activeElement := none
    isFocused := false
    model := some "abc" }

/-- C1: the active/decoration state resolves per render as: for every
entry type in the always-active set (color, file, time, date,
datetime-local, week, month) `isActive` is true regardless of focus,
persistent placeholder or override; for every other entry type,
`isActive` is true iff `persistentPlaceholder` or the focused state or
the explicit `active` override is set. -/
theorem C1_active_state_resolution (p : Props) (f : Bool) :
    (p.type ∈ activeTypes → isActive p f = true) ∧
    (p.type ∉ activeTypes →
      (isActive p f = true ↔
        (p.persistentPlaceholder = true ∨ f = true ∨ p.active = true))) := by
  constructor
  · intro h
    simp [isActive, h]
  · intro h
    simp [isActive, h, or_assoc]

theorem C1_active_state_resolution_witness :
    isActive { someProps with type := "color" } false = true ∧
    (isActive { someProps with type := "search" } true = true ↔
      (({ someProps with type := "search" } : Props).persistentPlaceholder = true ∨
        true = true ∨
        ({ someProps with type := "search" } : Props).active = true)) :=
  ⟨(C1_active_state_resolution { someProps with type := "color" } false).1
      (by decide),
   (C1_active_state_resolution { someProps with type := "search" } true).2
      (by decide)⟩

/-- C4 (amended): the counter's displayed maximum prefers the ambient
`maxlength` attribute when that value is truthy (nonzero number,
nonempty string); otherwise a `counter` prop that is a truthy number or
string gives that value verbatim; otherwise there is no maximum.
Present-but-falsy values (`0`, the empty string) are skipped by the
JavaScript truthiness tests. -/
theorem C4_max_resolution_truthy (ml : JSVal) (c : CounterProp) :
    (ml.truthy = true → max ml c = some ml) ∧
    (ml.truthy = false → c.truthy = true → (c.isNum = true ∨ c.isStr = true) →
      max ml c = some c.toJSVal) ∧
    (ml.truthy = false → (c.truthy = false ∨ (c.isNum = false ∧ c.isStr = false)) →
      max ml c = none) := by
  refine ⟨fun h => by simp [max, h], fun h1 h2 h3 => ?_, fun h1 h2 => ?_⟩
  · rcases h3 with h3 | h3 <;> simp [max, h1, h2, h3]
  · rcases h2 with h2 | h2
    · simp [max, h1, h2]
    · simp [max, h1, h2.1, h2.2]

theorem C4_max_resolution_truthy_witness :
    max (.str "10") (.str "5") = some (.str "10") ∧
    max .undef (.str "5") = some (.str "5") ∧
    max .undef (.bool true) = none :=
  ⟨(C4_max_resolution_truthy (.str "10") (.str "5")).1 (by decide),
   (C4_max_resolution_truthy .undef (.str "5")).2.1 (by decide) (by decide)
      (Or.inr (by decide)),
   (C4_max_resolution_truthy .undef (.bool true)).2.2 (by decide)
      (Or.inr (by decide))⟩

/-- C4 counterexample: the claim as stated is false.  With the
`maxlength` attribute present but falsy (the number `0`) and
`counter="5"`, the code resolves the max to `"5"`, not to the
`maxlength` value as the claimed precedence demands; and with no
`maxlength` and `counter` the number `0`, the code resolves no maximum
at all although `0` is "configured as a number". -/
theorem C4_counterexample :
    max (.num 0) (.str "5") = some (.str "5") ∧
    max (.num 0) (.str "5") ≠ some (.num 0) ∧
    max .undef (.num 0) = none := by
  refine ⟨by decide, by decide, by decide⟩

/-- C6 (amended): the counter's current count equals
`counterValue(modelValue)` whenever a custom counting function is
configured (and is then whatever that function returns, possibly
negative); otherwise it equals the character length of the string form
of the model value, a null/undefined model counting as the empty
string, and in that default case the count is nonnegative. -/
theorem C6_counter_value (p : Props) (m : Option String) :
    (∀ f, p.counterValue = some f → counterValue p m = f m) ∧
    (p.counterValue = none →
      counterValue p m = ((m.getD "").length : Int) ∧ 0 ≤ counterValue p m) := by
  constructor
  · intro f hf
    simp [counterValue, hf]
  · intro h
    simp [counterValue, h]

theorem C6_counter_value_witness :
    counterValue
        { someProps with counterValue := some fun v => 2 * ((v.getD "").length : Int) }
        (some "hello") = 10 ∧
    counterValue someProps (some "hello") = 5 ∧
    0 ≤ counterValue someProps (some "hello") := by
  refine ⟨?_, ?_, ?_⟩
  · have h := (C6_counter_value
        { someProps with counterValue := some fun v => 2 * ((v.getD "").length : Int) }
        (some "hello")).1 _ rfl
    rw [h]
    decide
  · have h := (C6_counter_value someProps (some "hello")).2 rfl
    rw [h.1]
    decide
  · exact ((C6_counter_value someProps (some "hello")).2 rfl).2

/-- C6 counterexample: the claim's "the count is always >= 0" is false:
a configured custom counting function may return a negative number and
the code passes it through verbatim. -/
theorem C6_counterexample :
    counterValue { someProps with counterValue := some fun _ => -1 }
        (some "hello") = -1 ∧
    ¬(0 ≤ counterValue { someProps with counterValue := some fun _ => -1 }
        (some "hello")) := by
  constructor
  · rfl
  · intro h
    norm_num [counterValue] at h

/-- C7 (amended): every handler and derived computation of the core is
total except `onIntersect`, which throws (a `TypeError` on
`entries[0].target`, modelled as `Except.error`) exactly when
`autofocus` is set, the report is intersecting, and the entries list is
empty; on every other input it returns normally. -/
theorem C7_total_except_empty_entries (af i : Bool) (es : List IntersectEntry) :
    onIntersect af i es = .error () ↔ (af = true ∧ i = true ∧ es = []) := by
  cases af <;> cases i <;> cases es <;> simp [onIntersect]

/-- C7 counterexample: the claim that no operation throws even "when
callback argument lists are empty" is false: `onIntersect` invoked with
`autofocus` set, an intersecting report and an empty entries list
evaluates `entries[0].target` on `undefined` and throws. -/
theorem C7_counterexample : onIntersect true true [] = .error () := rfl

/-- C2: on every raw input event the handler writes the element's
current value to the model unconditionally; iff the trim modifier is
enabled and the entry type is one of text/search/password/tel/url, it
captures the element's selection start/end and the deferred
continuation restores exactly those captured indices on whatever
element state exists after the flush (leaving the — possibly externally
trimmed — displayed value untouched). -/
theorem C2_on_input_trim_caret (p : Props) (el : El) :
    (onInput p el).modelWrite = el.value ∧
    (p.trimModifier = true ∧ p.type ∈ trimTypes →
      (onInput p el).caretRestore = some (el.selectionStart, el.selectionEnd) ∧
      ∀ el' : El,
        (applyCaretRestore (el.selectionStart, el.selectionEnd) el').selectionStart
            = el.selectionStart ∧
        (applyCaretRestore (el.selectionStart, el.selectionEnd) el').selectionEnd
            = el.selectionEnd ∧
        (applyCaretRestore (el.selectionStart, el.selectionEnd) el').value
            = el'.value) ∧
    (¬(p.trimModifier = true ∧ p.type ∈ trimTypes) →
      (onInput p el).caretRestore = none) := by
  refine ⟨rfl, fun h => ?_, fun h => ?_⟩
  · refine ⟨by simp [onInput, h.1, h.2], fun el' => ⟨rfl, rfl, rfl⟩⟩
  · rw [not_and_or] at h
    rcases h with h | h
    · simp at h
      simp [onInput, h]
    · simp [onInput, h]

theorem C2_on_input_trim_caret_witness :
    (onInput { someProps with modelModifiers := some ⟨true⟩ }
        ⟨"  hi  ", some 4, some 4⟩).modelWrite = "  hi  " ∧
    (onInput { someProps with modelModifiers := some ⟨true⟩ }
        ⟨"  hi  ", some 4, some 4⟩).caretRestore = some (some 4, some 4) ∧
    (applyCaretRestore (some 4, some 4) ⟨"hi", some 0, some 2⟩).selectionStart
        = some 4 ∧
    (onInput someProps ⟨"  hi  ", some 4, some 4⟩).caretRestore = none := by
  have h := C2_on_input_trim_caret { someProps with modelModifiers := some ⟨true⟩ }
      ⟨"  hi  ", some 4, some 4⟩
  have h2 := h.2.1 ⟨rfl, by decide⟩
  refine ⟨h.1, h2.1, (h2.2 ⟨"hi", some 0, some 2⟩).1, ?_⟩
  exact (C2_on_input_trim_caret someProps ⟨"  hi  ", some 4, some 4⟩).2.2
    (by intro hc; exact absurd hc.1 (by decide))

theorem runIntersect_unsubscribed (af : Bool) (t : Nat) (rs : List Bool) :
    runIntersect af t false rs = rs.map (fun _ => none) := by
  induction rs with
  | nil => rfl
  | cons r rs ih => simp [runIntersect, intersectOnceStep, ih]

theorem expectedFires_not_armed (t : Nat) (rs : List Bool) :
    expectedFires false t rs = rs.map (fun _ => none) := by
  induction rs with
  | nil => rfl
  | cons r rs ih => simp [expectedFires, ih]

theorem runIntersect_armed (t : Nat) (rs : List Bool) :
    runIntersect true t true rs = expectedFires true t rs := by
  induction rs with
  | nil => rfl
  | cons r rs ih =>
    cases r
    · simpa [runIntersect, intersectOnceStep, onIntersect, expectedFires] using ih
    · simp [runIntersect, intersectOnceStep, onIntersect, expectedFires,
        runIntersect_unsubscribed]

/-- C3: the autofocus-on-visible trigger is a one-shot: over any
sequence of visibility reports it focuses the observed element exactly
at the first intersecting report and never again (the once-mode
subscription is torn down after the first trigger); with `autofocus`
false it never fires; and a non-intersecting report changes neither the
subscription state nor fires a focus. -/
theorem C3_autofocus_one_shot (af : Bool) (t : Nat) (rs : List Bool) :
    autofocusFires af t rs = expectedFires af t rs ∧
    (af = false → ∀ x ∈ autofocusFires af t rs, x = none) ∧
    (∀ s, intersectOnceStep af t s false = (s, none)) := by
  refine ⟨?_, ?_, ?_⟩
  · cases af
    · rw [autofocusFires, runIntersect_unsubscribed, expectedFires_not_armed]
    · exact runIntersect_armed t rs
  · intro haf x hx
    subst haf
    rw [autofocusFires, runIntersect_unsubscribed] at hx
    rcases List.mem_map.1 hx with ⟨a, _, rfl⟩
    rfl
  · intro s
    cases s <;> cases af <;> rfl

theorem C3_autofocus_one_shot_witness :
    autofocusFires true 5 [true, true] = [some 5, none] ∧
    (∀ x ∈ autofocusFires false 5 [true, true], x = none) ∧
    intersectOnceStep true 5 true false = (true, none) := by
  refine ⟨?_, ?_, ?_⟩
  · rw [(C3_autofocus_one_shot true 5 [true, true]).1]
    rfl
  · exact fun x hx => (C3_autofocus_one_shot false 5 [true, true]).2.1 rfl x hx
  · exact (C3_autofocus_one_shot true 5 []).2.2 true

theorem applyEffs_cons (c : Ctx) (e : Eff) (es : List Eff) :
    applyEffs c (e :: es) = applyEffs (applyEff c e) es := rfl

theorem applyEffs_append (c : Ctx) (a b : List Eff) :
    applyEffs c (a ++ b) = applyEffs (applyEffs c a) b := by
  simp [applyEffs, List.foldl_append]

theorem applyEffs_onFocus_isFocused (c : Ctx) :
    (applyEffs c (onFocus c)).isFocused = true := by
  rcases c with ⟨ie, ae, f, m⟩
  cases f <;> cases ie <;> cases ae <;>
    simp [onFocus, strictNe, applyEffs, applyEff] <;>
    split_ifs <;>
    simp [applyEffs, applyEff]

theorem applyEffs_onFocus_model (c : Ctx) :
    (applyEffs c (onFocus c)).model = c.model := by
  rcases c with ⟨ie, ae, f, m⟩
  cases f <;> cases ie <;> cases ae <;>
    simp [onFocus, strictNe, applyEffs, applyEff] <;>
    split_ifs <;>
    simp [applyEffs, applyEff]

theorem setModelNull_not_mem_onFocus (c : Ctx) :
    Eff.setModelNull ∉ onFocus c := by
  rcases c with ⟨ie, ae, f, m⟩
  cases f <;> cases ie <;> cases ae <;>
    simp [onFocus, strictNe]

theorem callClearCb_not_mem_onFocus (c : Ctx) :
    Eff.callClearCb ∉ onFocus c := by
  rcases c with ⟨ie, ae, f, m⟩
  cases f <;> cases ie <;> cases ae <;>
    simp [onFocus, strictNe]

theorem preventDefault_not_mem_onFocus (c : Ctx) :
    Eff.preventDefault ∉ onFocus c := by
  rcases c with ⟨ie, ae, f, m⟩
  cases f <;> cases ie <;> cases ae <;>
    simp [onFocus, strictNe]

/-- C5: a clear-control interaction synchronously stops the event's
propagation (first effect) and acquires focus, without touching the
model; the model is set to null and the configured clear callback is
invoked only in the deferred next-tick continuation; and the focused
state is acquired at the end of the synchronous phase and unchanged by
the deferred phase. -/
theorem C5_on_clear_deferred (c : Ctx) (p : Props) :
    (onClear c p).1.head? = some .stopPropagation ∧
    Eff.setModelNull ∉ (onClear c p).1 ∧
    Eff.callClearCb ∉ (onClear c p).1 ∧
    (applyEffs c (onClear c p).1).model = c.model ∧
    (onClear c p).2 =
      .setModelNull :: (if p.onClickClear then [.callClearCb] else []) ∧
    (applyEffs (applyEffs c (onClear c p).1) (onClear c p).2).model = none ∧
    (applyEffs c (onClear c p).1).isFocused = true ∧
    (applyEffs (applyEffs c (onClear c p).1) (onClear c p).2).isFocused =
      (applyEffs c (onClear c p).1).isFocused := by
  refine ⟨rfl, ?_, ?_, ?_, ?_, ?_, ?_, ?_⟩
  · simp [onClear]
    exact setModelNull_not_mem_onFocus c
  · simp [onClear]
    exact callClearCb_not_mem_onFocus c
  · rw [onClear]
    simp only [applyEffs_cons]
    rw [show applyEff c .stopPropagation = c from rfl]
    exact applyEffs_onFocus_model c
  · simp [onClear, callEvent]
  · cases hcb : p.onClickClear <;>
      simp [onClear, callEvent, hcb, applyEffs_cons, applyEffs, applyEff]
  · rw [onClear]
    simp only [applyEffs_cons]
    rw [show applyEff c .stopPropagation = c from rfl]
    exact applyEffs_onFocus_isFocused c
  · cases hcb : p.onClickClear <;>
      simp [onClear, callEvent, hcb, applyEffs_cons, applyEffs, applyEff]

theorem C5_on_clear_deferred_witness :
    (onClear someCtx someProps).1.head? = some .stopPropagation ∧
    (applyEffs someCtx (onClear someCtx someProps).1).model = someCtx.model ∧
    (applyEffs (applyEffs someCtx (onClear someCtx someProps).1)
        (onClear someCtx someProps).2).model = none ∧
    (applyEffs someCtx (onClear someCtx someProps).1).isFocused = true := by
  have h := C5_on_clear_deferred someCtx someProps
  exact ⟨h.1, h.2.2.2.1, h.2.2.2.2.2.1, h.2.2.2.2.2.2.1⟩

/-- C8: calling the programmatic focus routine while the native input
element is absent performs no element focus acquisition (and, being
total, cannot throw); its only possible effect is the focused-flag
transition, taken exactly when the flag is currently unset. -/
theorem C8_focus_absent_input_noop (c : Ctx) (h : c.inputEl = none) :
    (∀ el, Eff.focusEl el ∉ onFocus c) ∧
    onFocus c = (if c.isFocused then [] else [.focusTransition]) := by
  rcases c with ⟨ie, ae, f, m⟩
  simp only at h
  subst h
  cases f <;> cases ae <;> simp [onFocus, strictNe]

theorem C8_focus_absent_input_noop_witness :
    (∀ el, Eff.focusEl el ∉ onFocus { someCtx with inputEl := none }) ∧
    onFocus { someCtx with inputEl := none } = [.focusTransition] := by
  have h := C8_focus_absent_input_noop { someCtx with inputEl := none } rfl
  exact ⟨h.1, by rw [h.2]; rfl⟩

/-- C9: every mousedown on the control first emits the
mousedown:control notification; iff the event's target is not the
native input element, the handler then invokes focus acquisition
(after which the focused flag is set) and prevents the event's default
action; when the target is the native input, it does neither. -/
theorem C9_control_mousedown (c : Ctx) (t : Nat) :
    (onControlMousedown c t).head? = some .emitMousedownControl ∧
    (some t = c.inputEl → onControlMousedown c t = [.emitMousedownControl]) ∧
    (some t ≠ c.inputEl →
      onControlMousedown c t =
        .emitMousedownControl :: (onFocus c ++ [.preventDefault]) ∧
      (applyEffs c (onControlMousedown c t)).isFocused = true) ∧
    (Eff.preventDefault ∈ onControlMousedown c t ↔ some t ≠ c.inputEl) := by
  refine ⟨rfl, fun h => ?_, fun h => ?_, ?_⟩
  · simp [onControlMousedown, h]
  · have hbeq : (some t == c.inputEl) = false := by
      simp [beq_iff_eq, h]
    refine ⟨by simp [onControlMousedown, hbeq], ?_⟩
    simp only [onControlMousedown, hbeq, if_neg Bool.false_ne_true,
      Bool.false_eq_true, if_false]
    rw [applyEffs_cons]
    rw [show applyEff c .emitMousedownControl = c from rfl]
    rw [applyEffs_append]
    rw [show applyEffs (applyEffs c (onFocus c)) [.preventDefault] =
        applyEffs c (onFocus c) from rfl]
    exact applyEffs_onFocus_isFocused c
  · constructor
    · intro hmem heq
      rw [(by simp [onControlMousedown, heq] :
        onControlMousedown c t = [.emitMousedownControl])] at hmem
      simp at hmem
    · intro h
      have hbeq : (some t == c.inputEl) = false := by
        simp [beq_iff_eq, h]
      simp [onControlMousedown, hbeq]

theorem C9_control_mousedown_witness :
    onControlMousedown someCtx 7 = [.emitMousedownControl] ∧
    Eff.preventDefault ∈ onControlMousedown someCtx 3 ∧
    (applyEffs someCtx (onControlMousedown someCtx 3)).isFocused = true := by
  refine ⟨(C9_control_mousedown someCtx 7).2.1 rfl, ?_, ?_⟩
  · exact ((C9_control_mousedown someCtx 3).2.2.2).2 (by decide)
  · exact ((C9_control_mousedown someCtx 3).2.2.1 (by decide)).2

/-- C10: the focus-acquisition routine is idempotent on the focused
state: it emits the focus-controller transition (which also raises the
focus-state-changed notification) iff the focused flag is currently
unset, and invoking it while already focused leaves the flag
unchanged. -/
theorem C10_focus_idempotent (c : Ctx) :
    (Eff.focusTransition ∈ onFocus c ↔ c.isFocused = false) ∧
    (c.isFocused = true → (applyEffs c (onFocus c)).isFocused = c.isFocused) := by
  constructor
  · rcases c with ⟨ie, ae, f, m⟩
    cases f <;> cases ie <;> cases ae <;>
      simp [onFocus, strictNe]
  · intro h
    rw [applyEffs_onFocus_isFocused c, h]

theorem C10_focus_idempotent_witness :
    (Eff.focusTransition ∈ onFocus { someCtx with isFocused := true } ↔
      ({ someCtx with isFocused := true } : Ctx).isFocused = false) ∧
    (applyEffs { someCtx with isFocused := true }
        (onFocus { someCtx with isFocused := true })).isFocused =
      ({ someCtx with isFocused := true } : Ctx).isFocused :=
  ⟨(C10_focus_idempotent { someCtx with isFocused := true }).1,
   (C10_focus_idempotent { someCtx with isFocused := true }).2 rfl⟩

end VTextField
